import Mathlib

/-!
# Verification of the sugarcane-advisory response classifier

This development embeds the response-classifier loop of `src/app.py`
(`display_results`, lines 116-142) in Lean 4 and proves the specified
properties about it.

The Python loop works on the lines of the model's free-text answer:

```
lines = analysis_text.split('\n')
disease_name, symptoms, actions = "", [], []
current_section = None
for line in lines:
    line = line.strip()
    if not line:
        continue
    if "disease" in line.lower() and "identification" in line.lower():
        current_section = "disease"; continue
    elif "symptom" in line.lower():
        current_section = "symptoms"; continue
    elif "action" in line.lower() or "treatment" in line.lower() or "recommend" in line.lower():
        current_section = "actions"; continue
    if current_section == "disease" and line and not disease_name:
        disease_name = line.replace('*', '').replace('#', '').strip()
    elif current_section == "symptoms" and line:
        if line.startswith('-') or line.startswith('•') or line[0].isdigit():
            symptoms.append(line.lstrip('-•0123456789. '))
    elif current_section == "actions" and line:
        if line.startswith('-') or line.startswith('•') or line[0].isdigit():
            actions.append(line.lstrip('-•0123456789. '))
```

Strings are modelled as `List Char`.  Python's string primitives
(`strip`, `lower`, `isdigit`, `lstrip(<set>)`, `split('\n')`) are
modelled at ASCII fidelity: `str.strip()` strips the ASCII whitespace
characters, `str.lower()` lowercases ASCII letters, `str.isdigit()`
accepts the ASCII digits (the spec's own reading: "an ASCII digit").
The only partial operation in the loop, the index `line[0]` (an
`IndexError` on the empty string), is modelled by returning `Option`,
so totality of the whole pass is a real theorem rather than a
by-construction triviality.
-/

namespace SugarcaneClassifier

/-- The classifier's output record (`ParsedAdvisory` in the spec):
`disease_name`, `symptoms`, `actions` of `display_results`. -/
structure ParsedAdvisory where
  diseaseName : String
  symptoms : List String
  actions : List String
deriving Repr, DecidableEq

/-- The section cursor values: Python's `current_section` strings
`"disease"`, `"symptoms"`, `"actions"` (the value `None` is modelled
by `Option Sect` below, mirroring `current_section = None`). -/
inductive Sect where
  | disease
  | symptoms
  | actions
deriving Repr, DecidableEq

/-- The loop state of `display_results`: the three accumulators and the
current section cursor. -/
structure ClassifierState where
  diseaseName : List Char
  symptoms : List (List Char)
  actions : List (List Char)
  currentSection : Option Sect
deriving Repr, DecidableEq

/-- Initial loop state: `disease_name, symptoms, actions = "", [], []`,
`current_section = None`. -/
def initState : ClassifierState :=
  { diseaseName := [], symptoms := [], actions := [], currentSection := none }

/-- The whitespace characters stripped by Python's `str.strip()`
(ASCII portion: space, tab, newline, carriage return, vertical tab,
form feed). -/
def isPySpace (c : Char) : Bool :=
  c == ' ' || c == '\t' || c == '\n' || c == '\r' || c == '\x0b' || c == '\x0c'

/-- Python `line.strip()`: remove leading and trailing whitespace. -/
def pyStrip (l : List Char) : List Char :=
  ((l.dropWhile isPySpace).reverse.dropWhile isPySpace).reverse

/-- Python `line.lower()` at ASCII fidelity (`Char.toLower` lowercases
exactly the ASCII uppercase letters). -/
def pyLower (l : List Char) : List Char :=
  l.map Char.toLower

/-- Python's substring test `needle in hay`. -/
def containsSub (needle : List Char) : List Char → Bool
  | [] => needle.isEmpty
  | c :: rest => needle.isPrefixOf (c :: rest) || containsSub needle rest

/-- Python `"disease" in line.lower() and "identification" in line.lower()`
(app.py line 125). -/
def isDiseaseHeader (line : List Char) : Bool :=
  containsSub "disease".data (pyLower line) &&
    containsSub "identification".data (pyLower line)

/-- Python `"symptom" in line.lower()` (app.py line 128). -/
def isSymptomHeader (line : List Char) : Bool :=
  containsSub "symptom".data (pyLower line)

/-- Python test `"action" in line.lower() or "treatment" in line.lower()
or "recommend" in line.lower()` (app.py line 131). -/
def isActionHeader (line : List Char) : Bool :=
  containsSub "action".data (pyLower line) ||
    containsSub "treatment".data (pyLower line) ||
    containsSub "recommend".data (pyLower line)

/-- Any of the three header tests fires on the line. -/
def isHeader (line : List Char) : Bool :=
  isDiseaseHeader line || isSymptomHeader line || isActionHeader line

/-- Python `line.startswith(c)` for a one-character argument. -/
def startsWith1 (t : Char) : List Char → Bool
  | [] => false
  | c :: _ => c == t

/-- The character set of `line.lstrip('-•0123456789. ')` (app.py
lines 139 and 142). -/
def bulletChars : List Char :=
  ['-', '•', '0', '1', '2', '3', '4', '5', '6', '7', '8', '9', '.', ' ']

/-- Python `line.lstrip('-•0123456789. ')`: drop the maximal leading
run of characters from the set. -/
def stripBullet (line : List Char) : List Char :=
  line.dropWhile (fun c => bulletChars.contains c)

/-- The bullet test `line.startswith('-') or line.startswith('•') or
line[0].isdigit()` (app.py lines 138 and 141).  The index `line[0]`
raises `IndexError` on an empty line, which is modelled by `none`;
it is only evaluated when both `startswith` tests fail (Python's
short-circuit `or`). -/
def isBulletLine (line : List Char) : Option Bool :=
  if startsWith1 '-' line || startsWith1 '•' line then some true
  else
    match line with
    | [] => none
    | c :: _ => some c.isDigit

/-- Python `line.replace('*', '').replace('#', '')` (app.py line 136):
remove every `*` and `#`. -/
def removeMd (line : List Char) : List Char :=
  line.filter (fun c => !(c == '*' || c == '#'))

/-- One iteration of the `for line in lines` body of `display_results`
on an already-stripped line (the body runs after `line = line.strip()`).
Returns `none` exactly when the Python body would raise. -/
def processStripped (st : ClassifierState) (line : List Char) : Option ClassifierState :=
  if line = [] then some st
  else if isDiseaseHeader line then
    some { st with currentSection := some Sect.disease }
  else if isSymptomHeader line then
    some { st with currentSection := some Sect.symptoms }
  else if isActionHeader line then
    some { st with currentSection := some Sect.actions }
  else
    match st.currentSection with
    | some Sect.disease =>
        if st.diseaseName = [] then
          some { st with diseaseName := pyStrip (removeMd line) }
        else some st
    | some Sect.symptoms =>
        match isBulletLine line with
        | none => none
        | some true => some { st with symptoms := st.symptoms ++ [stripBullet line] }
        | some false => some st
    | some Sect.actions =>
        match isBulletLine line with
        | none => none
        | some true => some { st with actions := st.actions ++ [stripBullet line] }
        | some false => some st
    | none => some st

/-- One iteration of the loop on a raw line: `line = line.strip()`
then the body. -/
def processLine (st : ClassifierState) (rawLine : List Char) : Option ClassifierState :=
  processStripped st (pyStrip rawLine)

/-- Run the loop over a list of raw lines starting from state `st`. -/
def classifyLinesFrom (st : ClassifierState) : List (List Char) → Option ClassifierState
  | [] => some st
  | l :: rest =>
    match processLine st l with
    | none => none
    | some st2 => classifyLinesFrom st2 rest

/-- Python `analysis_text.split('\n')`: split on every newline;
the empty string splits to `[""]`. -/
def splitOnNl (l : List Char) : List (List Char) :=
  match l with
  | [] => [[]]
  | c :: rest =>
    let r := splitOnNl rest
    if c = '\n' then [] :: r
    else
      match r with
      | [] => [[c]]
      | h :: t => (c :: h) :: t

/-- The classifier: lines 116-142 of `display_results` as a function of
the input text, returning the `ParsedAdvisory` record, or `none` if the
loop would raise (totality proves it never does). -/
def classify (s : String) : Option ParsedAdvisory :=
  match classifyLinesFrom initState (splitOnNl s.data) with
  | none => none
  | some st =>
    some { diseaseName := st.diseaseName.asString,
           symptoms := st.symptoms.map List.asString,
           actions := st.actions.map List.asString }

/-- The caller's fallback test (app.py line 157):
`if not disease_name and not symptoms and not actions:` render the raw
text verbatim. -/
def rendersRawFallback (p : ParsedAdvisory) : Bool :=
  p.diseaseName.isEmpty && p.symptoms.isEmpty && p.actions.isEmpty

/-! ## Helper lemmas -/

/-- If no header test fires, each of the three individual tests is false. -/
theorem isHeader_false_parts (line : List Char) (h : isHeader line = false) :
    isDiseaseHeader line = false ∧ isSymptomHeader line = false ∧
      isActionHeader line = false := by
  cases hd : isDiseaseHeader line
  · cases hs : isSymptomHeader line
    · cases ha : isActionHeader line
      · exact ⟨rfl, rfl, rfl⟩
      · simp [isHeader, hd, hs, ha] at h
    · simp [isHeader, hd, hs] at h
  · simp [isHeader, hd] at h

/-- On a non-empty line, the bullet test never raises, and its value is
exactly "first character is a dash, a bullet, or an ASCII digit". -/
theorem isBulletLine_cons (c : Char) (r : List Char) :
    isBulletLine (c :: r) = some (c == '-' || c == '•' || c.isDigit) := by
  simp only [isBulletLine, startsWith1]
  by_cases h1 : c = '-'
  · simp [h1]
  · by_cases h2 : c = '•'
    · simp [h2]
    · simp [h1, h2]

/-- The loop body never raises on a stripped line. -/
theorem processStripped_isSome (st : ClassifierState) (line : List Char) :
    (processStripped st line).isSome := by
  unfold processStripped
  by_cases h0 : line = []
  · rw [if_pos h0]; rfl
  · rw [if_neg h0]
    by_cases h1 : isDiseaseHeader line = true
    · rw [if_pos h1]; rfl
    · rw [if_neg h1]
      by_cases h2 : isSymptomHeader line = true
      · rw [if_pos h2]; rfl
      · rw [if_neg h2]
        by_cases h3 : isActionHeader line = true
        · rw [if_pos h3]; rfl
        · rw [if_neg h3]
          rcases hsec : st.currentSection with _ | s
          · rfl
          · cases s with
            | disease =>
              by_cases hn : st.diseaseName = []
              · rw [if_pos hn]; rfl
              · rw [if_neg hn]; rfl
            | symptoms =>
              cases line with
              | nil => exact absurd rfl h0
              | cons c r =>
                rw [isBulletLine_cons]
                cases (c == '-' || c == '•' || c.isDigit) <;> rfl
            | actions =>
              cases line with
              | nil => exact absurd rfl h0
              | cons c r =>
                rw [isBulletLine_cons]
                cases (c == '-' || c == '•' || c.isDigit) <;> rfl

/-- The loop body never raises on a raw line. -/
theorem processLine_isSome (st : ClassifierState) (rawLine : List Char) :
    (processLine st rawLine).isSome :=
  processStripped_isSome st (pyStrip rawLine)

/-- The whole scan never raises. -/
theorem classifyLinesFrom_isSome (lines : List (List Char)) :
    ∀ st, (classifyLinesFrom st lines).isSome := by
  induction lines with
  | nil => intro st; simp [classifyLinesFrom]
  | cons l rest ih =>
    intro st
    unfold classifyLinesFrom
    rcases h : processLine st l with _ | st2
    · have hs := processLine_isSome st l
      rw [h] at hs
      simp at hs
    · simp only [h]
      exact ih st2

/-- Routing of a non-header stripped line while the cursor is on the
DISEASE section (app.py lines 135-136). -/
theorem processStripped_disease (st : ClassifierState) (line : List Char)
    (hne : line ≠ []) (hnh : isHeader line = false)
    (hsec : st.currentSection = some Sect.disease) :
    processStripped st line =
      some (if st.diseaseName = [] then
              { st with diseaseName := pyStrip (removeMd line) }
            else st) := by
  obtain ⟨hd, hs, ha⟩ := isHeader_false_parts line hnh
  by_cases hn : st.diseaseName = [] <;>
    simp [processStripped, hne, hd, hs, ha, hsec, hn]

/-- Routing of a non-header stripped line while the cursor is on the
SYMPTOMS or ACTIONS section (app.py lines 137-142). -/
theorem processStripped_bullet (st : ClassifierState) (c : Char) (r : List Char)
    (line : List Char) (hl : line = c :: r) (hnh : isHeader line = false) :
    (st.currentSection = some Sect.symptoms →
      processStripped st line =
        some (if c == '-' || c == '•' || c.isDigit then
                { st with symptoms := st.symptoms ++ [stripBullet line] }
              else st)) ∧
    (st.currentSection = some Sect.actions →
      processStripped st line =
        some (if c == '-' || c == '•' || c.isDigit then
                { st with actions := st.actions ++ [stripBullet line] }
              else st)) := by
  obtain ⟨hd, hs, ha⟩ := isHeader_false_parts line hnh
  have hne : line ≠ [] := by rw [hl]; exact List.cons_ne_nil c r
  have hb : isBulletLine line = some (c == '-' || c == '•' || c.isDigit) := by
    rw [hl]; exact isBulletLine_cons c r
  constructor <;> intro hsec <;>
    · unfold processStripped
      rw [if_neg hne, if_neg (by simp [hd]), if_neg (by simp [hs]),
        if_neg (by simp [ha]), hsec, hb]
      cases (c == '-' || c == '•' || c.isDigit) <;> rfl

/-- One loop iteration only appends to the two lists and never
overwrites a non-empty disease name. -/
theorem processLine_growth (st : ClassifierState) (l : List Char)
    (st2 : ClassifierState) (h : processLine st l = some st2) :
    (∃ t, st2.symptoms = st.symptoms ++ t) ∧
    (∃ t, st2.actions = st.actions ++ t) ∧
    (st.diseaseName ≠ [] → st2.diseaseName = st.diseaseName) := by
  unfold processLine processStripped at h
  by_cases h0 : pyStrip l = []
  · rw [if_pos h0] at h
    cases h
    exact ⟨⟨[], by simp⟩, ⟨[], by simp⟩, fun _ => rfl⟩
  · rw [if_neg h0] at h
    by_cases h1 : isDiseaseHeader (pyStrip l) = true
    · rw [if_pos h1] at h
      cases h
      exact ⟨⟨[], by simp⟩, ⟨[], by simp⟩, fun _ => rfl⟩
    · rw [if_neg h1] at h
      by_cases h2 : isSymptomHeader (pyStrip l) = true
      · rw [if_pos h2] at h
        cases h
        exact ⟨⟨[], by simp⟩, ⟨[], by simp⟩, fun _ => rfl⟩
      · rw [if_neg h2] at h
        by_cases h3 : isActionHeader (pyStrip l) = true
        · rw [if_pos h3] at h
          cases h
          exact ⟨⟨[], by simp⟩, ⟨[], by simp⟩, fun _ => rfl⟩
        · rw [if_neg h3] at h
          rcases hsec : st.currentSection with _ | s
          · rw [hsec] at h
            cases h
            exact ⟨⟨[], by simp⟩, ⟨[], by simp⟩, fun _ => rfl⟩
          · rw [hsec] at h
            cases s with
            | disease =>
              by_cases hn : st.diseaseName = []
              · rw [if_pos hn] at h
                cases h
                exact ⟨⟨[], by simp⟩, ⟨[], by simp⟩, fun hc => absurd hn hc⟩
              · rw [if_neg hn] at h
                cases h
                exact ⟨⟨[], by simp⟩, ⟨[], by simp⟩, fun _ => rfl⟩
            | symptoms =>
              rcases hb : isBulletLine (pyStrip l) with _ | b
              · rw [hb] at h; cases h
              · rw [hb] at h
                cases b
                · cases h
                  exact ⟨⟨[], by simp⟩, ⟨[], by simp⟩, fun _ => rfl⟩
                · cases h
                  exact ⟨⟨[stripBullet (pyStrip l)], rfl⟩, ⟨[], by simp⟩, fun _ => rfl⟩
            | actions =>
              rcases hb : isBulletLine (pyStrip l) with _ | b
              · rw [hb] at h; cases h
              · rw [hb] at h
                cases b
                · cases h
                  exact ⟨⟨[], by simp⟩, ⟨[], by simp⟩, fun _ => rfl⟩
                · cases h
                  exact ⟨⟨[], by simp⟩, ⟨[stripBullet (pyStrip l)], rfl⟩, fun _ => rfl⟩

/-- A scan that starts with the cursor on no section and meets no header
line leaves the state untouched. -/
theorem classifyLinesFrom_no_header (lines : List (List Char)) :
    ∀ st : ClassifierState, st.currentSection = none →
      (∀ l ∈ lines, isHeader (pyStrip l) = false) →
      classifyLinesFrom st lines = some st := by
  induction lines with
  | nil => intro st _ _; rfl
  | cons l rest ih =>
    intro st hsec hall
    obtain ⟨hd, hs, ha⟩ := isHeader_false_parts (pyStrip l) (hall l (by simp))
    have hstep : processLine st l = some st := by
      unfold processLine processStripped
      by_cases h0 : pyStrip l = []
      · rw [if_pos h0]
      · rw [if_neg h0, if_neg (by simp [hd]), if_neg (by simp [hs]),
          if_neg (by simp [ha]), hsec]
    unfold classifyLinesFrom
    rw [hstep]
    exact ih st hsec fun l' hm => hall l' (by simp [hm])

/-! ## Claim theorems -/

/-- C1: Totality — for every input string (empty, whitespace, or
arbitrary garbage) the classifier terminates and returns a well-formed
`ParsedAdvisory`; in particular the modelled `line[0]` index inside the
bullet test never faults, because it is only reached on lines that are
non-empty after trimming. -/
theorem classify_total (s : String) :
    ∃ p : ParsedAdvisory, classify s = some p := by
  have hs := classifyLinesFrom_isSome (splitOnNl s.data) initState
  rcases h : classifyLinesFrom initState (splitOnNl s.data) with _ | st
  · rw [h] at hs
    simp at hs
  · exact ⟨_, by unfold classify; rw [h]⟩

/-- C2: End-to-end example — the four-line input yields exactly
`diseaseName = "Leaf Scald"`, `symptoms = ["yellow streaks"]`,
`actions = []`: the two header lines switch the cursor and are
consumed, the name line is captured, the bulleted line is appended
with its marker stripped. -/
theorem classify_example_run :
    classify "Disease Identification:\nLeaf Scald\nSymptoms:\n- yellow streaks" =
      some { diseaseName := "Leaf Scald", symptoms := ["yellow streaks"],
             actions := [] } := by
  decide

/-- C3: Bullet acceptance and stripping — under the SYMPTOMS or ACTIONS
cursor, a trimmed non-header line is appended to the corresponding list
if and only if its first character is a dash, a bullet, or an ASCII
digit; an accepted line is stored with the maximal leading run of the
characters of `bulletChars` removed, and a non-bullet line is dropped,
leaving the state unchanged. -/
theorem bullet_accept_strip (st : ClassifierState) (rawLine : List Char)
    (c : Char) (r : List Char) (hl : pyStrip rawLine = c :: r)
    (hnh : isHeader (pyStrip rawLine) = false) :
    (st.currentSection = some Sect.symptoms →
      processLine st rawLine =
        some (if c == '-' || c == '•' || c.isDigit then
                { st with symptoms := st.symptoms ++ [stripBullet (pyStrip rawLine)] }
              else st)) ∧
    (st.currentSection = some Sect.actions →
      processLine st rawLine =
        some (if c == '-' || c == '•' || c.isDigit then
                { st with actions := st.actions ++ [stripBullet (pyStrip rawLine)] }
              else st)) :=
  processStripped_bullet st c r (pyStrip rawLine) hl hnh

/-- Witness for C3: `"2. Apply fungicide"` under ACTIONS is stored as
`"Apply fungicide"`; `"This leaf shows clear signs of stress."` under
SYMPTOMS is dropped. -/
theorem bullet_accept_strip_witness :
    processLine { initState with currentSection := some Sect.actions }
        "2. Apply fungicide".data =
      some { diseaseName := [], symptoms := [], actions := ["Apply fungicide".data],
             currentSection := some Sect.actions } ∧
    processLine { initState with currentSection := some Sect.symptoms }
        "This leaf shows clear signs of stress.".data =
      some { diseaseName := [], symptoms := [], actions := [],
             currentSection := some Sect.symptoms } := by
  constructor
  · have h := (bullet_accept_strip
      { initState with currentSection := some Sect.actions }
      "2. Apply fungicide".data '2' ". Apply fungicide".data
      (by decide) (by decide)).2 rfl
    exact h.trans (by decide)
  · have h := (bullet_accept_strip
      { initState with currentSection := some Sect.symptoms }
      "This leaf shows clear signs of stress.".data 'T'
      "his leaf shows clear signs of stress.".data (by decide) (by decide)).1 rfl
    exact h.trans (by decide)

/-- C4: Header priority is first-match-wins in the order DISEASE,
SYMPTOMS, ACTIONS — the SYMPTOMS branch needs no hypothesis about the
action keywords, so a line containing both "symptom" and "recommend"
still goes to SYMPTOMS; every header case only moves the cursor, the
line is never appended to any bucket. -/
theorem header_priority (st : ClassifierState) (line : List Char)
    (hne : line ≠ []) :
    (isDiseaseHeader line = true →
      processStripped st line =
        some { st with currentSection := some Sect.disease }) ∧
    (isDiseaseHeader line = false → isSymptomHeader line = true →
      processStripped st line =
        some { st with currentSection := some Sect.symptoms }) ∧
    (isDiseaseHeader line = false → isSymptomHeader line = false →
      isActionHeader line = true →
      processStripped st line =
        some { st with currentSection := some Sect.actions }) := by
  refine ⟨fun h1 => ?_, fun h1 h2 => ?_, fun h1 h2 h3 => ?_⟩
  · unfold processStripped
    rw [if_neg hne, if_pos h1]
  · unfold processStripped
    rw [if_neg hne, if_neg (by simp [h1]), if_pos h2]
  · unfold processStripped
    rw [if_neg hne, if_neg (by simp [h1]), if_neg (by simp [h2]), if_pos h3]

/-- Witness for C4: a line containing "symptom", "recommend" and
"action" switches the cursor to SYMPTOMS (the symptom test is evaluated
before the action test), and the buckets stay untouched. -/
theorem header_priority_witness :
    processStripped initState "Symptoms and Recommended Actions:".data =
      some { diseaseName := [], symptoms := [], actions := [],
             currentSection := some Sect.symptoms } := by
  have h := (header_priority initState "Symptoms and Recommended Actions:".data
    (by decide)).2.1 (by decide) (by decide)
  exact h.trans (by decide)

/-- C5: First-disease-only capture — under the DISEASE cursor a trimmed
non-header line is captured (with every `*` and `#` removed and the
result trimmed, no truncation) exactly when no name is set yet;
once `diseaseName` is non-empty, every later line is ignored. -/
theorem disease_first_capture (st : ClassifierState) (rawLine : List Char)
    (hne : pyStrip rawLine ≠ []) (hnh : isHeader (pyStrip rawLine) = false)
    (hsec : st.currentSection = some Sect.disease) :
    processLine st rawLine =
      some (if st.diseaseName = [] then
              { st with diseaseName := pyStrip (removeMd (pyStrip rawLine)) }
            else st) :=
  processStripped_disease st (pyStrip rawLine) hne hnh hsec

/-- Witness for C5: the first line under DISEASE is captured with the
markdown characters stripped; a second line is ignored because the name
is already set. -/
theorem disease_first_capture_witness :
    processLine { initState with currentSection := some Sect.disease }
        " **Leaf Scald** ".data =
      some { diseaseName := "Leaf Scald".data, symptoms := [], actions := [],
             currentSection := some Sect.disease } ∧
    processLine { diseaseName := "Leaf Scald".data, symptoms := [], actions := [],
                  currentSection := some Sect.disease } "Red Rot".data =
      some { diseaseName := "Leaf Scald".data, symptoms := [], actions := [],
             currentSection := some Sect.disease } := by
  constructor
  · have h := disease_first_capture
      { initState with currentSection := some Sect.disease }
      " **Leaf Scald** ".data (by decide) (by decide) rfl
    exact h.trans (by decide)
  · have h := disease_first_capture
      { diseaseName := "Leaf Scald".data, symptoms := [], actions := [],
        currentSection := some Sect.disease } "Red Rot".data
      (by decide) (by decide) rfl
    exact h.trans (by decide)

/-- C6: Append-only, no-reset invariant — across any scan, the symptoms
and actions lists of the final state are the initial lists extended on
the right (never removed, cleared, or reordered), and a non-empty
disease name is never overwritten; re-entering a section only moves the
cursor, so later items extend the existing list. -/
theorem lists_append_only (lines : List (List Char)) (st st2 : ClassifierState)
    (h : classifyLinesFrom st lines = some st2) :
    (∃ t, st2.symptoms = st.symptoms ++ t) ∧
    (∃ t, st2.actions = st.actions ++ t) ∧
    (st.diseaseName ≠ [] → st2.diseaseName = st.diseaseName) := by
  induction lines generalizing st with
  | nil =>
    unfold classifyLinesFrom at h
    injection h with h
    subst h
    exact ⟨⟨[], by simp⟩, ⟨[], by simp⟩, fun _ => rfl⟩
  | cons l rest ih =>
    unfold classifyLinesFrom at h
    rcases hp : processLine st l with _ | stm
    · rw [hp] at h
      cases h
    · rw [hp] at h
      obtain ⟨⟨t1, ht1⟩, ⟨u1, hu1⟩, hd1⟩ := processLine_growth st l stm hp
      obtain ⟨⟨t2, ht2⟩, ⟨u2, hu2⟩, hd2⟩ := ih stm h
      refine ⟨⟨t1 ++ t2, by rw [ht2, ht1, List.append_assoc]⟩,
        ⟨u1 ++ u2, by rw [hu2, hu1, List.append_assoc]⟩, fun hnd => ?_⟩
      have e1 := hd1 hnd
      have e2 := hd2 (by rw [e1]; exact hnd)
      rw [e2, e1]

/-- Witness for C6: a scan that accepts one more symptom extends the
existing symptom list on the right and keeps the set disease name. -/
theorem lists_append_only_witness :
    (∃ t, ["a".data, "b".data] = ["a".data] ++ t) ∧
    (∃ t, ([] : List (List Char)) = [] ++ t) ∧
    ("X".data ≠ [] → "X".data = "X".data) := by
  have h := lists_append_only ["Symptoms:".data, "- b".data]
    { diseaseName := "X".data, symptoms := ["a".data], actions := [],
      currentSection := none }
    { diseaseName := "X".data, symptoms := ["a".data, "b".data], actions := [],
      currentSection := some Sect.symptoms }
    (by decide)
  exact h

/-- C7: All-empty fallback — any input none of whose lines matches a
header keyword test yields the all-empty record (the cursor never
leaves NONE, so every line is dropped), and that record is exactly the
caller's render-the-raw-text fallback condition. -/
theorem no_header_all_empty (s : String)
    (h : ∀ l ∈ splitOnNl s.data, isHeader (pyStrip l) = false) :
    classify s = some { diseaseName := "", symptoms := [], actions := [] } ∧
      rendersRawFallback { diseaseName := "", symptoms := [], actions := [] } =
        true := by
  refine ⟨?_, by decide⟩
  unfold classify
  rw [classifyLinesFrom_no_header (splitOnNl s.data) initState rfl h]
  rfl

/-- Witness for C7: `"I cannot identify this image."` has no header
line, so classification returns the all-empty record. -/
theorem no_header_all_empty_witness :
    classify "I cannot identify this image." =
      some { diseaseName := "", symptoms := [], actions := [] } := by
  have h := no_header_all_empty "I cannot identify this image." (by decide)
  exact h.1

/-- C8: Determinism and purity — the classifier is a pure function of
its input text: equal inputs always produce equal `ParsedAdvisory`
records, and nothing else influences the result (the embedding has no
other state the result could depend on). -/
theorem classify_deterministic (s t : String) (h : s = t) :
    classify s = classify t := by
  rw [h]

/-- Witness for C8: two runs on the same input agree. -/
theorem classify_deterministic_witness :
    classify "Symptoms:\n- spots" = classify "Symptoms:\n- spots" :=
  classify_deterministic "Symptoms:\n- spots" "Symptoms:\n- spots" rfl

/-- C9: Over-stripping and empty items — `"- 2025 Apply lime"` under
ACTIONS loses its leading content characters too and is stored as
`"Apply lime"`, and a marker-only line such as `"-"` or `"1."` is
accepted and stored as the empty string, so the output lists may
contain empty-string items. -/
theorem overstripped_and_empty_items :
    classify "Recommended Actions:\n- 2025 Apply lime\n-" =
      some { diseaseName := "", symptoms := [],
             actions := ["Apply lime", ""] } ∧
    classify "Symptoms:\n1." =
      some { diseaseName := "", symptoms := [""], actions := [] } ∧
    ∃ p : ParsedAdvisory,
      classify "Recommended Actions:\n- 2025 Apply lime\n-" = some p ∧
        "" ∈ p.actions := by
  refine ⟨by decide, by decide,
    ⟨⟨"", [], ["Apply lime", ""]⟩, by decide, by decide⟩⟩

/-- C10: An all-markdown first disease line does not block capture — a
DISEASE-section line that strips to nothing leaves the name unset (the
state is unchanged), and the next qualifying line of the section is
captured instead. -/
theorem markdown_only_disease_line_skipped (st : ClassifierState)
    (l1 l2 : List Char) (hsec : st.currentSection = some Sect.disease)
    (hname : st.diseaseName = []) (h1nh : isHeader (pyStrip l1) = false)
    (h1md : pyStrip (removeMd (pyStrip l1)) = [])
    (h2nh : isHeader (pyStrip l2) = false) (h2ne : pyStrip l2 ≠ []) :
    classifyLinesFrom st [l1, l2] =
      some { st with diseaseName := pyStrip (removeMd (pyStrip l2)) } := by
  have e1 : processLine st l1 = some st := by
    by_cases h0 : pyStrip l1 = []
    · unfold processLine processStripped
      rw [if_pos h0]
    · have hx := processStripped_disease st (pyStrip l1) h0 h1nh hsec
      rw [if_pos hname, h1md] at hx
      unfold processLine
      rw [hx, ← hname]
  have e2 : processLine st l2 =
      some { st with diseaseName := pyStrip (removeMd (pyStrip l2)) } := by
    have hx := processStripped_disease st (pyStrip l2) h2ne h2nh hsec
    rw [if_pos hname] at hx
    exact hx
  unfold classifyLinesFrom
  rw [e1]
  unfold classifyLinesFrom
  rw [e2]
  rfl

/-- Witness for C10: after a `"***"` line under DISEASE the name is
still unset, and `"Leaf Scald"` on the next line is captured. -/
theorem markdown_only_disease_line_skipped_witness :
    classifyLinesFrom { initState with currentSection := some Sect.disease }
        ["***".data, "Leaf Scald".data] =
      some { diseaseName := "Leaf Scald".data, symptoms := [], actions := [],
             currentSection := some Sect.disease } := by
  have h := markdown_only_disease_line_skipped
    { initState with currentSection := some Sect.disease }
    "***".data "Leaf Scald".data rfl rfl (by decide) (by decide)
    (by decide) (by decide)
  exact h.trans (by decide)

end SugarcaneClassifier
